import Mathlib

/-!
Shallow embedding of the GeoGLI chatbot's query-routing and
retrieval-orchestration pipeline (repository Cory79784/GeoGLI-Chatbot).

Sources embedded:
* `backend/app/search/router_intent.py` — rule-based intent classifier `route`
* `backend/app/rag/vectorstore.py` — `FAISSVectorStore` (search / save / load)
* `backend/app/rag/retriever.py` — `DenseRetriever.retrieve`
* `backend/app/utils/sse.py` — `create_sse_stream` orchestration / event stream

Conventions: Python strings are Lean `String`; `s1 in s2` is list-infix
containment on the character lists; similarity scores (Python floats used
only for comparison against the 0.3 threshold and for equality of results)
are modelled as rationals `ℚ`; dictionaries holding an optional "score" key
become an `Option ℚ` field with `doc.get("score", 0)` modelled by `getD 0`.
External collaborators (BM25 stores, lexical handlers, the embedding model,
the LLM provider) are opaque parameters of an environment record.
-/

namespace GeoGLI

/-- `as` is an initial segment of `bs`. -/
def isPrefixChars : List Char → List Char → Bool
  | [], _ => true
  | _ :: _, [] => false
  | a :: as, b :: bs => a = b && isPrefixChars as bs

/-- `needle` occurs contiguously somewhere in `haystack`. -/
def isSubChars (needle : List Char) : List Char → Bool
  | [] => needle.isEmpty
  | b :: bs => isPrefixChars needle (b :: bs) || isSubChars needle bs

/-- Python `needle in haystack` for strings: substring containment. -/
def containsStr (haystack needle : String) : Bool :=
  isSubChars needle.data haystack.data

/-- Python `str.lower()`; the repository's keyword tables are ASCII (plus
Chinese characters, which `lower()` leaves unchanged), so per-character
ASCII lowercasing is faithful on every string this code compares. -/
def pyLower (s : String) : String :=
  String.mk (s.data.map Char.toLower)

/-- Slot record produced by `router_intent.route`
(`router_intent.py`, lines 22-28). -/
structure Slots where
  intent : String
  country : String
  region : String
  indicator : String
  period : String
deriving Repr, DecidableEq

/-- `country_aliases` dict (`router_intent.py`, lines 31-36); Python dicts
iterate in insertion order. -/
def country_aliases : List (String × String) :=
  [("saudi", "Saudi Arabia"), ("ksa", "Saudi Arabia"),
   ("沙特", "Saudi Arabia"), ("saudi arabia", "Saudi Arabia")]

/-- `region_aliases` dict (`router_intent.py`, lines 48-62). -/
def region_aliases : List (String × String) :=
  [("mena", "Middle East and North Africa"),
   ("middle east and north africa", "Middle East and North Africa"),
   ("middle east", "Middle East and North Africa"),
   ("north africa", "Middle East and North Africa"),
   ("sub-saharan africa", "Sub-Saharan Africa"),
   ("sub saharan africa", "Sub-Saharan Africa"),
   ("ssa", "Sub-Saharan Africa"),
   ("africa", "Sub-Saharan Africa"),
   ("asia", "Asia"),
   ("europe", "Europe"),
   ("americas", "Americas"),
   ("oceania", "Oceania")]

/-- `indicator_keywords` dict (`router_intent.py`, lines 82-90). -/
def indicator_keywords : List (String × String) :=
  [("wildfire", "wildfires"), ("fire", "wildfires"), ("drought", "drought"),
   ("vegetation", "vegetation productivity"), ("carbon", "soil organic carbon"),
   ("degradation", "land degradation"), ("productivity", "vegetation productivity")]

/-- The `for alias, value in table.items(): if alias in query_lower: set; break`
pattern: value of the first table entry whose key occurs in `ql`, else `""`. -/
def firstAliasMatch (ql : String) (tbl : List (String × String)) : String :=
  match tbl.find? (fun p => containsStr ql p.1) with
  | some p => p.2
  | none => ""

/-- Exactly four decimal digits at the head of the character list
(the regex atom `\d{4}`), returning them and the remainder. -/
def takeFourDigits : List Char → Option (List Char × List Char)
  | c1 :: c2 :: c3 :: c4 :: rest =>
    if c1.isDigit && c2.isDigit && c3.isDigit && c4.isDigit then
      some ([c1, c2, c3, c4], rest)
    else none
  | _ => none

/-- The regex atom `\s*` (greedy; safe because each following literal is
never whitespace, so no backtracking can occur). -/
def skipSpaces (cs : List Char) : List Char :=
  cs.dropWhile (fun c => c.isWhitespace)

/-- Try the pattern `(\d{4})\s*-\s*(\d{4})` anchored at the head of `cs`
(`re.search` pattern 1, `router_intent.py` line 71), producing
`f"{g1}-{g2}"` on success. -/
def matchYearRangeAt (cs : List Char) : Option String :=
  match takeFourDigits cs with
  | none => none
  | some (g1, rest) =>
    match skipSpaces rest with
    | '-' :: rest2 =>
      match takeFourDigits (skipSpaces rest2) with
      | some (g2, _) => some (String.mk g1 ++ "-" ++ String.mk g2)
      | none => none
    | _ => none

/-- `re.search` semantics for pattern 1: leftmost position at which the
pattern matches. -/
def searchYearRange : List Char → Option String
  | [] => none
  | c :: cs =>
    match matchYearRangeAt (c :: cs) with
    | some s => some s
    | none => searchYearRange cs

/-- The regex atom `\s+` followed by nothing it can swallow: at least one
whitespace character, returning the remainder, else `none`. -/
def skipSpaces1 (cs : List Char) : Option (List Char) :=
  match cs with
  | c :: rest => if c.isWhitespace then some (skipSpaces rest) else none
  | [] => none

/-- The regex atom `(\d+)` (greedy run of digits, at least one). -/
def takeDigits1 (cs : List Char) : Option (List Char × List Char) :=
  let ds := cs.takeWhile (fun c => c.isDigit)
  if ds.isEmpty then none else some (ds, cs.drop ds.length)

/-- Try `last\s+(\d+)\s+years` anchored at the head of `cs`
(first alternative of `re.search` pattern 2, `router_intent.py` line 76),
returning the digit group. -/
def matchLastYearsAt (cs : List Char) : Option String :=
  if isPrefixChars "last".data cs then
    match skipSpaces1 (cs.drop 4) with
    | none => none
    | some rest =>
      match takeDigits1 rest with
      | none => none
      | some (ds, rest2) =>
        match skipSpaces1 rest2 with
        | none => none
        | some rest3 =>
          if isPrefixChars "years".data rest3 then some (String.mk ds) else none
  else none

/-- Try `最近(\d+)年` anchored at the head of `cs`
(second alternative of pattern 2), returning the digit group. -/
def matchZuiJinAt (cs : List Char) : Option String :=
  if isPrefixChars "最近".data cs then
    match takeDigits1 (cs.drop 2) with
    | none => none
    | some (ds, rest) =>
      match rest with
      | c :: _ => if c = '年' then some (String.mk ds) else none
      | [] => none
  else none

/-- `re.search` for pattern 2 `last\s+(\d+)\s+years|最近(\d+)年`:
at each position the first alternative is tried before the second. -/
def searchLastYears : List Char → Option String
  | [] => none
  | c :: cs =>
    match matchLastYearsAt (c :: cs) with
    | some s => some s
    | none =>
      match matchZuiJinAt (c :: cs) with
      | some s => some s
      | none => searchLastYears cs

/-- Period extraction (`router_intent.py`, lines 69-79): pattern 1 runs on
the original query, pattern 2 on the lowercased query; no match leaves the
slot as `""`. -/
def extractPeriod (query ql : String) : String :=
  match searchYearRange query.data with
  | some s => s
  | none =>
    match searchLastYears ql.data with
    | some ys => "last " ++ ys ++ " years"
    | none => ""

def law_keywords : List String :=
  ["law", "act", "regulation", "legislation", "法规", "条例", "细则"]

def commitment_keywords : List String :=
  ["commitment", "承诺", "restore", "restoration"]

def region_indicators : List String :=
  ["region", "by region", "地区", "区域"]

def country_indicators : List String :=
  ["country", "by country", "国家"]

/-- `route` (`router_intent.py`, lines 9-122): slot extraction followed by
keyword-precedence intent assignment.  A total pure function of the query
string and the fixed tables (the Python function has no side effects and
can raise nothing: it only does substring tests and regex searches). -/
def route (query : String) : Slots :=
  let ql := pyLower query
  let c0 := firstAliasMatch ql country_aliases
  let country := if c0 = "" then "Saudi Arabia" else c0
  let region := firstAliasMatch ql region_aliases
  let period := extractPeriod query ql
  let indicator := firstAliasMatch ql indicator_keywords
  let intent :=
    if law_keywords.any (fun k => containsStr ql k) then "law.lookup"
    else if commitment_keywords.any (fun k => containsStr ql k) then
      if region_indicators.any (fun k => containsStr ql k) then "commit.region"
      else if country_indicators.any (fun k => containsStr ql k) then "commit.country"
      else "commit.country"
    else "ask.country"
  { intent := intent, country := country, region := region,
    indicator := indicator, period := period }

/-- Modelled from the spec (§4.1 item 5): the intent-precedence rule as the
spec words it — legislation/law keywords → `law.lookup`; else
commitment/restoration keywords → `commit.region` if region-scoped language
is present, else `commit.country`; otherwise the default `ask.country`.
Used only to compare against the code-derived `route`. -/
def specIntent (query : String) : String :=
  let ql := pyLower query
  if law_keywords.any (fun k => containsStr ql k) then "law.lookup"
  else if commitment_keywords.any (fun k => containsStr ql k) then
    if region_indicators.any (fun k => containsStr ql k) then "commit.region"
    else "commit.country"
  else "ask.country"

/-! ## Vector store (`backend/app/rag/vectorstore.py`) -/

/-- Metadata entries are opaque dicts; only identity matters to the claims. -/
abbrev Meta := Nat

/-- A FAISS `IndexFlatIP` as data: its fixed dimension and the vectors in
insertion order (`ntotal = vectors.length`). -/
structure FaissIndex where
  dim : Nat
  vectors : List (List ℚ)
deriving Repr, DecidableEq

/-- In-memory state of `FAISSVectorStore` (`vectorstore.py`, lines 16-20):
`index` is `None` until initialized or loaded; `metadata` starts `[]`;
`dimension` is `None` until known. -/
structure VectorStore where
  index : Option FaissIndex
  metadata : List Meta
  dimension : Option Nat
deriving Repr, DecidableEq

/-- The fresh global instance `vector_store = FAISSVectorStore()`
(`vectorstore.py`, line 152). -/
def VectorStore.empty : VectorStore :=
  { index := none, metadata := [], dimension := none }

/-- The `info.json` record `{"dimension": ..., "total_vectors": ...}`
(`vectorstore.py`, line 100); `dimension` may be JSON `null` since
`self.dimension` can be `None`. -/
structure InfoRec where
  dimension : Option Nat
  total_vectors : Nat
deriving Repr, DecidableEq

/-- The three persisted artifacts in the index directory: `index.faiss`,
`metadata.json`, `info.json`; `none` = file absent. -/
structure DiskState where
  indexFile : Option FaissIndex
  metadataFile : Option (List Meta)
  infoFile : Option InfoRec
deriving Repr, DecidableEq

/-- A search result: a copy of the metadata entry plus the `"score"` key
(`vectorstore.py`, lines 75-77). -/
structure SearchHit where
  meta : Meta
  score : ℚ
deriving Repr, DecidableEq

/-- Inner product of two vectors (FAISS `IndexFlatIP` similarity). -/
def innerProduct (u v : List ℚ) : ℚ :=
  (List.zipWith (fun a b => a * b) u v).sum

/-- Comparator for FAISS exhaustive top-k on `(score, id)` pairs:
descending score, ties broken by insertion order (smaller id first). -/
def hitBefore (a b : ℚ × Nat) : Bool :=
  decide (b.1 < a.1) || (decide (a.1 = b.1) && decide (a.2 ≤ b.2))

/-- Insert into a list sorted by `hitBefore`. -/
def insertHit (x : ℚ × Nat) : List (ℚ × Nat) → List (ℚ × Nat)
  | [] => [x]
  | y :: ys => if hitBefore x y then x :: y :: ys else y :: insertHit x ys

/-- Sort scored ids by `hitBefore` (insertion sort). -/
def sortHits : List (ℚ × Nat) → List (ℚ × Nat)
  | [] => []
  | x :: xs => insertHit x (sortHits xs)

/-- `ntotal` of the store's index (`self.index.ntotal`), 0 when `None`. -/
def VectorStore.ntotal (vs : VectorStore) : Nat :=
  match vs.index with
  | none => 0
  | some idx => idx.vectors.length

/-- `FAISSVectorStore.search` (`vectorstore.py`, lines 52-79): empty result
when the index is `None` or holds zero vectors; otherwise FAISS returns the
`min(top_k, ntotal)` best (score, id) pairs — all ids valid, so the
`idx >= 0` guard always passes — and each id is kept only if it is within
the metadata list's bounds (`idx < len(self.metadata)`), building the
result from `self.metadata[idx]` plus the score.  A total function: the
Python body performs no call that can raise on a loaded index. -/
def VectorStore.search (vs : VectorStore) (query_vector : List ℚ) (top_k : Nat) :
    List SearchHit :=
  match vs.index with
  | none => []
  | some idx =>
    if idx.vectors.length = 0 then []
    else
      let scored := (List.range idx.vectors.length).map
        (fun i => (innerProduct query_vector ((idx.vectors.drop i).headD []), i))
      let top := (sortHits scored).take (min top_k idx.vectors.length)
      top.filterMap (fun p =>
        match vs.metadata.get? p.2 with
        | some m => some { meta := m, score := p.1 }
        | none => none)

/-- `FAISSVectorStore.save` (`vectorstore.py`, lines 81-102): raises
(`none`) when `self.index is None`; otherwise writes the three artifacts —
the FAISS index, the metadata list, and `{dimension, total_vectors}`. -/
def VectorStore.save (vs : VectorStore) : Option DiskState :=
  match vs.index with
  | none => none
  | some idx =>
    some { indexFile := some idx,
           metadataFile := some vs.metadata,
           infoFile := some { dimension := vs.dimension,
                              total_vectors := idx.vectors.length } }

/-- `FAISSVectorStore.load` (`vectorstore.py`, lines 104-136): returns
`False` leaving the store untouched when any of `index.faiss`,
`metadata.json`, `info.json` is absent; otherwise reads all three, setting
`self.index`, `self.metadata` and `self.dimension = info["dimension"]`, and
returns `True`.  The surrounding `try/except` also returns `False` if a
read/deserialization raises; the model's artifacts are structured data, so
deserialization always succeeds here.  Note the body performs no
consistency check whatsoever between the three artifacts. -/
def VectorStore.load (vs : VectorStore) (disk : DiskState) : VectorStore × Bool :=
  match disk.indexFile, disk.metadataFile, disk.infoFile with
  | some idx, some md, some info =>
    ({ index := some idx, metadata := md, dimension := info.dimension }, true)
  | _, _, _ => (vs, false)

/-- `get_stats` status field (`vectorstore.py`, lines 138-148):
`"not_initialized"` when `self.index is None`, else `"loaded"`. -/
def VectorStore.statsStatus (vs : VectorStore) : String :=
  match vs.index with
  | none => "not_initialized"
  | some _ => "loaded"

/-! ## Dense retriever (`backend/app/rag/retriever.py`) -/

/-- `DenseRetriever` instance state: only `self._index_loaded`
(`retriever.py`, line 18). -/
structure Retriever where
  indexLoaded : Bool
deriving Repr, DecidableEq

/-- `DenseRetriever.__init__` (`retriever.py`, lines 16-21): does NOT load
the vector store — loading is deferred to the first `retrieve` call. -/
def Retriever.init : Retriever := { indexLoaded := false }

/-- External circumstances of one `retrieve` call: the persisted artifacts
the lazy `vector_store.load()` would read, the current global
`vector_store` state, whether `embedding_provider.embed_text` (and the
lazy import of the embedder module) succeeds, and the query vector it returns
when it does. -/
structure RetrieverEnv where
  disk : DiskState
  store0 : VectorStore
  embedOk : Bool
  queryVec : List ℚ

/-- Result of `DenseRetriever.retrieve` plus the observations the claims
need: the updated retriever state, the `vector_store` state after the call,
and whether `vector_store.load()` was invoked during the call. -/
structure RetrieveOut where
  hits : List SearchHit
  retr : Retriever
  store : VectorStore
  loadCalled : Bool

/-- `DenseRetriever.retrieve` (`retriever.py`, lines 23-75).
Control flow of the source:
1. if `self._index_loaded` is false, call `vector_store.load()` and set
   `_index_loaded = True` (the boolean `load` returns is discarded;
   `load` itself catches its own exceptions and returns `False`, so the
   `except` arms around it — which would also `return []` — cannot fire
   for the failures modelled here);
2. `get_stats()` check: return `[]` unless status is `"loaded"` and
   `total_vectors > 0`;
3. inside `try`: import the embedder, embed the query, `search`; any
   exception (modelled by `embedOk = false`; `search` is total) is caught
   and yields `[]`.
A total function — no exception ever escapes to the caller.

`retrieveHits` is steps 2-3 given the post-lazy-load store state;
`Retriever.retrieve` below is step 1 composed with it. -/
def retrieveHits (store1 : VectorStore) (env : RetrieverEnv) (top_k : Nat) :
    List SearchHit :=
  match store1.index with
  | none => []
  | some idx =>
    if idx.vectors.length = 0 then []
    else if env.embedOk = false then []
    else store1.search env.queryVec top_k

def Retriever.retrieve (r : Retriever) (env : RetrieverEnv) (top_k : Nat) :
    RetrieveOut :=
  let s :=
    if r.indexLoaded = false then
      ((env.store0.load env.disk).1, Retriever.mk true, true)
    else (env.store0, r, false)
  { hits := retrieveHits s.1 env top_k, retr := s.2.1,
    store := s.1, loadCalled := s.2.2 }

/-! ## SSE orchestration (`backend/app/utils/sse.py`) -/

/-- BM25 hits are opaque dicts (the handlers and the `_to_public_path`
rewrite of their `images`/`citation_path` fields do not affect which events
are emitted, only the hit payloads' contents). -/
abbrev Hit := Nat

/-- One SSE event as yielded by `create_sse_stream` (payload parts the
claims speak about are carried explicitly). -/
inductive Event where
  | bm25 (intent : String) (hits : List Hit)
  | token (t : String)
  | final (route : String)
  | error
  | done
deriving Repr, DecidableEq

def Event.isBm25 : Event → Bool
  | .bm25 _ _ => true
  | _ => false

def Event.isToken : Event → Bool
  | .token _ => true
  | _ => false

def Event.isFinal : Event → Bool
  | .final _ => true
  | _ => false

def Event.isError : Event → Bool
  | .error => true
  | _ => false

/-- Process-wide circumstances of one `create_sse_stream` call.
* `storesPresent`: truthiness of `app_ref.state.bm25_stores` (line 61) —
  `False` when the attribute is absent, `None`, or an empty collection;
* `denseEnabled`: `app_ref.state.rag_dense_enabled` (line 62);
* `handlerOutcome intent message`: what the dispatched lexical handler
  returns, `none` meaning it raised (the `except` at line 77 then sets
  `hits = []`);
* `graphImportOk`: whether `from app.router_graph import ...` (line 107)
  succeeds; `ragDenseEnvVar`/`retrieverImportOk`: the env flag and import
  at lines 110-112;
* `llmEnabled`: whether `RAG_LLM_ENABLED` is `"true"` AND
  `app.llm.provider` imports AND its generation stream works;
* `llmTokens`: the tokens fallback generation streams when it runs;
* `retrievedDocs`: what `dense_retriever.retrieve` would return — present
  to show it is never consulted. -/
structure SSEEnv where
  storesPresent : Bool
  denseEnabled : Bool
  handlerOutcome : String → String → Option (List Hit)
  graphImportOk : Bool
  ragDenseEnvVar : Bool
  retrieverImportOk : Bool
  llmEnabled : Bool
  llmTokens : List String
  retrievedDocs : List SearchHit

/-- The `if/elif` handler dispatch (`sse.py`, lines 69-76): which lexical
handler runs for a given intent string (`none` if no arm matches — cannot
happen for `route`'s outputs). -/
def dispatchHandler (intent : String) : Option String :=
  if intent = "ask.country" then some "ask.country"
  else if intent = "commit.region" then some "commit.region"
  else if intent = "commit.country" then some "commit.country"
  else if intent = "law.lookup" then some "law.lookup"
  else none

/-- The disclaimer constant (`sse.py`, lines 157 and 308). -/
def disclaimer : String :=
  "Note: No matches were found in the internal knowledge base. Answering using general knowledge from the model.\n\n"

/-- Body of the `try` at `sse.py` line 106 (lines 107-303), as events
yielded before control leaves it and whether it raised.  Every execution
raises before yielding anything: line 107 (or line 112 when
`RAG_DENSE_ENABLED` is set) may raise `ImportError`; if the imports
succeed, line 117 evaluates `getattr(app.state, "rag_dense_enabled",
False)` — but the name `app` is unbound in this function (only `app_ref`
was imported at line 51; no other statement binds `app`), so a `NameError`
is raised there.  The dense tier (line 190), the confidence gate (lines
233-235) and grounded generation (line 274) are therefore unreachable. -/
def denseTryBody (env : SSEEnv) : List Event × Bool :=
  if env.graphImportOk = false then ([], true)
  else if env.ragDenseEnvVar && env.retrieverImportOk = false then ([], true)
  else ([], true)

/-- The `except Exception` handler (`sse.py`, lines 305-340).  Inside it,
lines 319-322 are indented into the body of the disclaimer `for` loop
(lines 313-315): each iteration yields one `token` event, then evaluates
`RAG_LLM_ENABLED` and raises `ImportError` if generation is disabled.  So:
with generation unavailable, exactly one disclaimer `token` is yielded
before the inner `except` (line 336) emits the single `error` event; with
generation available, all disclaimer characters are streamed, then the
generated tokens, then one `final` event with route `"B_fallback"`. -/
def exceptHandler (env : SSEEnv) : List Event :=
  if env.llmEnabled then
    disclaimer.data.map (fun c => Event.token (String.mk [c]))
      ++ env.llmTokens.map Event.token
      ++ [Event.final "B_fallback"]
  else
    match disclaimer.data with
    | [] => [Event.error]
    | c :: _ => [Event.token (String.mk [c]), Event.error]

/-- Everything `create_sse_stream` does after the BM25 pre-routing block:
the `try` body (which always raises before yielding) followed by the
exception handler. -/
def denseSection (env : SSEEnv) : List Event :=
  let (evs, raised) := denseTryBody env
  if raised then evs ++ exceptHandler env else evs

/-- Observable outcome of one `create_sse_stream` call: the yielded events
plus invocation facts about the collaborators. -/
structure Trace where
  events : List Event
  routeIntentCalled : Bool
  handlerCalled : Option String
  denseRetrieveCalled : Bool
  groundedGenCalled : Bool
  fallbackGenCalled : Bool
deriving Repr

/-- `create_sse_stream` (`sse.py`, lines 27-340).  BM25 pre-routing
(lines 49-102): when the stores are truthy, classify the intent, dispatch
the matching handler (exceptions → `hits = []`), rewrite hit paths; on a
hit emit `bm25 {intent, hits}` then `done` and return; on a miss with
dense disabled emit `bm25 {intent, hits: []}` then `done` and return.
Otherwise fall through to the dense/generation section.
`groundedGenCalled` is `llm_provider.generate_stream` (line 274),
`denseRetrieveCalled` is `dense_retriever.retrieve` (line 190) — both
unreachable, see `denseTryBody`; `fallbackGenCalled` is `stream_generate`
in the exception handler (line 323), reached iff generation is enabled. -/
def create_sse_stream (env : SSEEnv) (message : String) : Trace :=
  if env.storesPresent then
    let slots := route message
    let intent := slots.intent
    let hits := (env.handlerOutcome intent message).getD []
    if hits.isEmpty = false then
      { events := [Event.bm25 intent hits, Event.done],
        routeIntentCalled := true, handlerCalled := dispatchHandler intent,
        denseRetrieveCalled := false, groundedGenCalled := false,
        fallbackGenCalled := false }
    else if env.denseEnabled = false then
      { events := [Event.bm25 intent [], Event.done],
        routeIntentCalled := true, handlerCalled := dispatchHandler intent,
        denseRetrieveCalled := false, groundedGenCalled := false,
        fallbackGenCalled := false }
    else
      { events := denseSection env,
        routeIntentCalled := true, handlerCalled := dispatchHandler intent,
        denseRetrieveCalled := false, groundedGenCalled := false,
        fallbackGenCalled := (denseTryBody env).2 && env.llmEnabled }
  else
    { events := denseSection env,
      routeIntentCalled := false, handlerCalled := none,
      denseRetrieveCalled := false, groundedGenCalled := false,
      fallbackGenCalled := (denseTryBody env).2 && env.llmEnabled }

/-! ## Concrete instances used by counterexamples and witnesses -/

/-- Stores present; the dispatched handler returns one hit. -/
def envHit : SSEEnv :=
  { storesPresent := true, denseEnabled := true,
    handlerOutcome := fun _ _ => some [3],
    graphImportOk := true, ragDenseEnvVar := false, retrieverImportOk := true,
    llmEnabled := false, llmTokens := [], retrievedDocs := [] }

/-- Stores present, dense retrieval disabled process-wide, handler raises
(so its hits are `[]`). -/
def envMiss : SSEEnv :=
  { storesPresent := true, denseEnabled := false,
    handlerOutcome := fun _ _ => none,
    graphImportOk := true, ragDenseEnvVar := false, retrieverImportOk := true,
    llmEnabled := false, llmTokens := [], retrievedDocs := [] }

/-- BM25 stores absent (`app.state.bm25_stores` is `None`/empty). -/
def envNoStores : SSEEnv :=
  { storesPresent := false, denseEnabled := true,
    handlerOutcome := fun _ _ => some [3],
    graphImportOk := true, ragDenseEnvVar := false, retrieverImportOk := true,
    llmEnabled := false, llmTokens := [], retrievedDocs := [] }

/-- Stores absent, generation enabled, and a dense document with score
`0.9 > 0.3` available for retrieval — the configuration under which the
claimed grounded-generation path would run. -/
def c2Env : SSEEnv :=
  { storesPresent := false, denseEnabled := true,
    handlerOutcome := fun _ _ => none,
    graphImportOk := true, ragDenseEnvVar := true, retrieverImportOk := true,
    llmEnabled := true, llmTokens := ["General knowledge answer."],
    retrievedDocs := [{ meta := 0, score := 9 / 10 }] }

/-- An index artifact recording dimension 4 and holding one vector. -/
def c5Idx : FaissIndex := { dim := 4, vectors := [[1, 0, 0, 0]] }

/-- An info artifact whose recorded dimension (7) and vector count (99)
both contradict `c5Idx`, with a metadata list of length 0 ≠ 1. -/
def c5Disk : DiskState :=
  { indexFile := some c5Idx, metadataFile := some [],
    infoFile := some { dimension := some 7, total_vectors := 99 } }

/-- A one-vector index for the persist/load round trip. -/
def c7Idx : FaissIndex := { dim := 2, vectors := [[1, 0]] }

/-- A populated store: one vector, one aligned metadata entry. -/
def c7Store : VectorStore :=
  { index := some c7Idx, metadata := [5], dimension := some 2 }

/-- The three artifacts `c7Store.save` writes. -/
def c7Disk : DiskState :=
  { indexFile := some c7Idx, metadataFile := some [5],
    infoFile := some { dimension := some 2, total_vectors := 1 } }

/-- A store whose metadata list (length 1) is shorter than its vector
count (2): positions ≥ 1 are dropped by `search`'s bounds check. -/
def c10Store : VectorStore :=
  { index := some { dim := 1, vectors := [[1], [2]] },
    metadata := [7], dimension := some 1 }

/-- A deployment with no persisted artifacts at all and a failing
embedder, against a fresh global store. -/
def c6Env : RetrieverEnv :=
  { disk := { indexFile := none, metadataFile := none, infoFile := none },
    store0 := VectorStore.empty, embedOk := false, queryVec := [] }

/-! ## Claim theorems -/

/-- `denseTryBody` raises on every path (see its doc comment): nothing is
yielded and control always transfers to the exception handler. -/
theorem denseTryBody_raises (env : SSEEnv) : denseTryBody env = ([], true) := by
  unfold denseTryBody
  split
  · rfl
  · split <;> rfl

/-- Consequently the whole dense/generation section is the exception
handler's output. -/
theorem denseSection_eq (env : SSEEnv) : denseSection env = exceptHandler env := by
  unfold denseSection
  rw [denseTryBody_raises]
  rfl

/-- The exception handler emits only `token`, `final` and `error` events —
never a `bm25` event. -/
theorem exceptHandler_no_bm25 (env : SSEEnv) :
    (exceptHandler env).countP Event.isBm25 = 0 := by
  refine List.countP_eq_zero.mpr ?_
  intro a ha
  unfold exceptHandler at ha
  split at ha
  · simp only [List.mem_append, List.mem_map, List.mem_cons,
      List.not_mem_nil, or_false] at ha
    rcases ha with (⟨c, -, rfl⟩ | ⟨t, -, rfl⟩) | rfl <;> simp [Event.isBm25]
  · split at ha
    · simp only [List.mem_cons, List.not_mem_nil, or_false] at ha
      subst ha; simp [Event.isBm25]
    · simp only [List.mem_cons, List.not_mem_nil, or_false] at ha
      rcases ha with rfl | rfl <;> simp [Event.isBm25]

/-- **C1** — For every query whose dispatched lexical handler returns at
least one hit (with the BM25 stores present, which is the precondition for
the lexical tier to run at all), the stream is exactly one `bm25` event
carrying `{intent, hits}` followed by exactly one `done` event — so zero
`token` and zero `final` events — and neither `dense_retriever.retrieve`
nor either generation collaborator is invoked. -/
theorem c1_lexical_hit_short_circuit (env : SSEEnv) (msg : String)
    (hs : env.storesPresent = true)
    (hh : (env.handlerOutcome (route msg).intent msg).getD [] ≠ []) :
    create_sse_stream env msg =
      { events := [Event.bm25 (route msg).intent
          ((env.handlerOutcome (route msg).intent msg).getD []), Event.done],
        routeIntentCalled := true,
        handlerCalled := dispatchHandler (route msg).intent,
        denseRetrieveCalled := false, groundedGenCalled := false,
        fallbackGenCalled := false } := by
  have hhe : ((env.handlerOutcome (route msg).intent msg).getD []).isEmpty
      = false := by
    rcases h : (env.handlerOutcome (route msg).intent msg).getD [] with _ | ⟨a, l⟩
    · exact absurd h hh
    · rfl
  simp only [create_sse_stream, hs, if_true, hhe]

/-- **C1 witness** — concrete run: stores present, handler returns hit
`[3]`; the stream is `[bm25, done]` and no collaborator ran. -/
theorem c1_lexical_hit_short_circuit_witness :
    create_sse_stream envHit "show Saudi wildfire trend" =
      { events := [Event.bm25 (route "show Saudi wildfire trend").intent
          ((envHit.handlerOutcome (route "show Saudi wildfire trend").intent
            "show Saudi wildfire trend").getD []), Event.done],
        routeIntentCalled := true,
        handlerCalled := dispatchHandler (route "show Saudi wildfire trend").intent,
        denseRetrieveCalled := false, groundedGenCalled := false,
        fallbackGenCalled := false } :=
  c1_lexical_hit_short_circuit envHit "show Saudi wildfire trend" rfl (by decide)

/-- **C3** — For every query where the lexical handler yields no hits and
dense retrieval is disabled process-wide, the stream is exactly one `bm25`
event with empty hits followed by a `done` event; no generation collaborator
is called and no `error` event is emitted (the empty result is explicit,
not an error). -/
theorem c3_lexical_miss_dense_disabled (env : SSEEnv) (msg : String)
    (hs : env.storesPresent = true)
    (hmiss : (env.handlerOutcome (route msg).intent msg).getD [] = [])
    (hdense : env.denseEnabled = false) :
    create_sse_stream env msg =
      { events := [Event.bm25 (route msg).intent [], Event.done],
        routeIntentCalled := true,
        handlerCalled := dispatchHandler (route msg).intent,
        denseRetrieveCalled := false, groundedGenCalled := false,
        fallbackGenCalled := false } := by
  simp only [create_sse_stream, hs, if_true, hmiss, hdense, List.isEmpty_nil,
    ite_self]

/-- **C3 witness** — concrete run: stores present, handler raises (hits
become `[]`), dense disabled; the stream is `[bm25 [], done]`. -/
theorem c3_lexical_miss_dense_disabled_witness :
    create_sse_stream envMiss "show Saudi wildfire trend" =
      { events := [Event.bm25 (route "show Saudi wildfire trend").intent [],
          Event.done],
        routeIntentCalled := true,
        handlerCalled := dispatchHandler (route "show Saudi wildfire trend").intent,
        denseRetrieveCalled := false, groundedGenCalled := false,
        fallbackGenCalled := false } :=
  c3_lexical_miss_dense_disabled envMiss "show Saudi wildfire trend" rfl rfl rfl

/-- **C9** — When the process-wide BM25 stores are absent (`None`/empty),
the lexical tier is skipped for every query: the intent classifier and the
lexical handlers are never invoked, no `bm25` event is emitted (so the
dense-disabled empty-hits short-circuit cannot apply either), and the
stream is exactly the dense/generation section's output. -/
theorem c9_stores_absent_skips_lexical_tier (env : SSEEnv) (msg : String)
    (hs : env.storesPresent = false) :
    (create_sse_stream env msg).routeIntentCalled = false ∧
    (create_sse_stream env msg).handlerCalled = none ∧
    (create_sse_stream env msg).events.countP Event.isBm25 = 0 ∧
    (create_sse_stream env msg).events = denseSection env := by
  have hkey : create_sse_stream env msg =
      { events := denseSection env, routeIntentCalled := false,
        handlerCalled := none, denseRetrieveCalled := false,
        groundedGenCalled := false,
        fallbackGenCalled := (denseTryBody env).2 && env.llmEnabled } := by
    simp only [create_sse_stream, hs, Bool.false_eq_true, if_false]
  rw [hkey]
  refine ⟨rfl, rfl, ?_, rfl⟩
  rw [denseSection_eq]
  exact exceptHandler_no_bm25 env

/-- **C9 witness** — concrete run with the stores absent: the classifier
and handlers are skipped and no `bm25` event appears. -/
theorem c9_stores_absent_skips_lexical_tier_witness :
    (create_sse_stream envNoStores "Saudi logging law 2020").routeIntentCalled
      = false ∧
    (create_sse_stream envNoStores "Saudi logging law 2020").handlerCalled
      = none ∧
    (create_sse_stream envNoStores "Saudi logging law 2020").events.countP
      Event.isBm25 = 0 ∧
    (create_sse_stream envNoStores "Saudi logging law 2020").events
      = denseSection envNoStores :=
  c9_stores_absent_skips_lexical_tier envNoStores "Saudi logging law 2020" rfl

/-- **C2** — code bug.  The claim describes `sse.py`'s confidence gate
(lines 233-235: keep documents with `score > 0.3`) and grounded generation
(line 274, invoked iff the filtered list is non-empty, otherwise the
generation-fallback path).  That is plainly the code's intent (spec §4.5
steps 4-6 and the comments in the source), but line 117 evaluates
`getattr(app.state, ...)` where the name `app` is unbound (the function
bound the application object to `app_ref`), so every execution of the
dense section raises `NameError` before the gate and lands in the
exception fallback: grounded generation is never invoked in
`create_sse_stream`.  First conjunct: for every environment and query, the
grounded-generation collaborator is not called.  Remaining conjuncts
evaluate the code at a failing input — stores absent, generation enabled,
and a retrievable document with score `0.9 > 0.3` waiting — and show the
stream nonetheless ends in a `final` event with route `"B_fallback"`. -/
theorem c2_confidence_gate_unreachable :
    (∀ env msg, (create_sse_stream env msg).groundedGenCalled = false) ∧
    c2Env.retrievedDocs.filter (fun d => decide ((3 : ℚ) / 10 < d.score)) ≠ [] ∧
    (create_sse_stream c2Env "wildfire trends in Kenya").events.countP
      Event.isFinal = 1 ∧
    Event.final "B_fallback" ∈
      (create_sse_stream c2Env "wildfire trends in Kenya").events := by
  refine ⟨?_, by norm_num [c2Env, List.filter], by decide, by decide⟩
  intro env msg
  simp only [create_sse_stream]
  by_cases h : env.storesPresent = true
  · rw [if_pos h]
    split
    · rfl
    split <;> rfl
  · rw [if_neg h]

/-- **C4** — For every input text, the intent classifier assigns intents by
fixed precedence with first match winning: legislation/law keywords →
`law.lookup`; otherwise commitment/restoration keywords → `commit.region`
when region-scoped language is present, else `commit.country`; otherwise
the default `ask.country`.  `route` is a total Lean function of the query
and the fixed keyword tables (so deterministic, pure and never raising, as
claimed), and its slot fields are `String`s that are `""` when nothing
matched, never an optional/null value.  The intent it computes coincides
with `specIntent`, the spec-worded precedence rule. -/
theorem c4_intent_precedence (q : String) : (route q).intent = specIntent q := by
  simp only [route, specIntent]
  split
  · rfl
  · split
    · split
      · rfl
      · split <;> rfl
    · rfl

/-- **C8 counterexample** — the claim says the query
"Saudi logging law 2020" yields period `"2020"`; the period extractor
(`router_intent.py`, lines 69-79) only recognizes `YYYY-YYYY` ranges and
"last N years" phrases, so the period slot stays `""`. -/
theorem c8_period_slot_empty :
    (route "Saudi logging law 2020").period = "" ∧
    (route "Saudi logging law 2020").period ≠ "2020" := by
  decide

/-- **C8 amended** — For the input "Saudi logging law 2020" the classifier
produces intent `law.lookup`, country `"Saudi Arabia"`, and an empty period
slot (the extractor matches no bare year), and — for any process state with
the BM25 stores present — only the `law.lookup` lexical handler is
dispatched for this query. -/
theorem c8_example_scenario_amended (env : SSEEnv)
    (hs : env.storesPresent = true) :
    route "Saudi logging law 2020" =
      { intent := "law.lookup", country := "Saudi Arabia",
        region := "", indicator := "", period := "" } ∧
    (create_sse_stream env "Saudi logging law 2020").handlerCalled =
      some "law.lookup" := by
  have hd : dispatchHandler (route "Saudi logging law 2020").intent =
      some "law.lookup" := by decide
  refine ⟨by decide, ?_⟩
  simp only [create_sse_stream, hs, if_true]
  split
  · exact hd
  · split
    · exact hd
    · exact hd

/-- **C8 amended witness** — the scenario under a concrete environment
with the stores present. -/
theorem c8_example_scenario_amended_witness :
    route "Saudi logging law 2020" =
      { intent := "law.lookup", country := "Saudi Arabia",
        region := "", indicator := "", period := "" } ∧
    (create_sse_stream envHit "Saudi logging law 2020").handlerCalled =
      some "law.lookup" :=
  c8_example_scenario_amended envHit rfl

/-- **C5 counterexample** — the claim says `load` fails when the artifacts
are mutually inconsistent (recorded dimension ≠ index dimension, metadata
count ≠ vector count).  `c5Disk`'s info record says dimension 7 and 99
vectors while its index has dimension 4 and one vector and its metadata
list is empty — yet `load` succeeds: lines 104-136 of `vectorstore.py`
check only that the three files exist. -/
theorem c5_load_ignores_inconsistency :
    (VectorStore.empty.load c5Disk).1.dimension ≠ some c5Idx.dim ∧
    (VectorStore.empty.load c5Disk).1.metadata.length ≠
      (VectorStore.empty.load c5Disk).1.ntotal ∧
    (VectorStore.empty.load c5Disk).2 = true := by
  decide

/-- **C5 amended** — `load` fails explicitly (returns `False`, leaving the
store untouched) iff any of the three persisted artifacts (index file,
metadata list, info record) is missing (or, outside this model, a read
raises); it performs no mutual-consistency validation, so artifacts with
mismatched dimension or count load successfully. -/
theorem c5_load_fails_iff_artifact_missing (vs : VectorStore)
    (disk : DiskState) :
    (vs.load disk).2 = false ↔
      disk.indexFile = none ∨ disk.metadataFile = none ∨
        disk.infoFile = none := by
  rcases disk with ⟨i, m, f⟩
  rcases i with _ | i <;> rcases m with _ | m <;> rcases f with _ | f <;>
    simp [VectorStore.load]

/-- Helper: when `index.faiss` is absent, `load` returns the store
unchanged with `False`. -/
theorem load_missing_index (vs : VectorStore) (disk : DiskState)
    (h : disk.indexFile = none) : vs.load disk = (vs, false) := by
  rcases disk with ⟨i, m, f⟩
  dsimp only at h
  subst h
  rcases m with _ | m <;> rcases f with _ | f <;> rfl

/-- Helper: no store index → no hits. -/
theorem retrieveHits_index_none (st : VectorStore) (env : RetrieverEnv)
    (k : Nat) (h : st.index = none) : retrieveHits st env k = [] := by
  simp [retrieveHits, h]

/-- Helper: zero vectors → no hits. -/
theorem retrieveHits_zero_vectors (st : VectorStore) (env : RetrieverEnv)
    (k : Nat) (idx : FaissIndex) (h : st.index = some idx)
    (hz : idx.vectors.length = 0) : retrieveHits st env k = [] := by
  simp [retrieveHits, h, hz]

/-- Helper: embedding failure → no hits. -/
theorem retrieveHits_embed_fail (st : VectorStore) (env : RetrieverEnv)
    (k : Nat) (h : env.embedOk = false) : retrieveHits st env k = [] := by
  unfold retrieveHits
  rcases st.index with _ | idx
  · rfl
  · simp [h]

/-- **C6** — `retrieve` degrades gracefully: the fresh retriever has not
loaded the index (`__init__` defers loading), the lazy `vector_store.load`
is attempted exactly when `_index_loaded` is still unset, and the call
returns `[]` — never an exception, `retrieve` being a total function —
whenever the persisted index is missing (fresh store, no `index.faiss`),
whenever the effective store holds zero vectors, and whenever the
embedding step fails. -/
theorem c6_retrieve_graceful_degradation (env : RetrieverEnv)
    (r : Retriever) (top_k : Nat) :
    Retriever.init.indexLoaded = false ∧
    (r.retrieve env top_k).loadCalled = !r.indexLoaded ∧
    (r.indexLoaded = false → env.store0.index = none →
      env.disk.indexFile = none → (r.retrieve env top_k).hits = []) ∧
    (∀ idx, (r.retrieve env top_k).store.index = some idx →
      idx.vectors.length = 0 → (r.retrieve env top_k).hits = []) ∧
    (env.embedOk = false → (r.retrieve env top_k).hits = []) := by
  refine ⟨rfl, ?_, ?_, ?_, ?_⟩
  · rcases hr : r.indexLoaded <;> simp [Retriever.retrieve, hr]
  · intro hr hst hdisk
    simp only [Retriever.retrieve, hr, if_pos]
    exact retrieveHits_index_none _ env top_k
      (by rw [load_missing_index env.store0 env.disk hdisk]; exact hst)
  · intro idx hidx hz
    rcases hr : r.indexLoaded <;>
      simp only [Retriever.retrieve, hr, Bool.false_eq_true, if_true,
        if_false, ite_true, ite_false] at hidx ⊢ <;>
      exact retrieveHits_zero_vectors _ env top_k idx hidx hz
  · intro he
    rcases hr : r.indexLoaded <;>
      simp only [Retriever.retrieve, hr, Bool.false_eq_true, if_true,
        if_false, ite_true, ite_false] <;>
      exact retrieveHits_embed_fail _ env top_k he

/-- **C6 witness** — fresh retriever, empty deployment (no artifacts on
disk, fresh global store, failing embedder): the load is attempted on this
first call and the result is the empty list, not an error. -/
theorem c6_retrieve_graceful_degradation_witness :
    (Retriever.init.retrieve c6Env 6).loadCalled = !Retriever.init.indexLoaded ∧
    (Retriever.init.retrieve c6Env 6).hits = [] := by
  have h := c6_retrieve_graceful_degradation c6Env Retriever.init 6
  exact ⟨h.2.1, h.2.2.1 rfl rfl rfl⟩

/-- **C7** — persist/load round trip: saving a populated store and loading
the written artifacts (into any store) succeeds and reproduces the same
vector count, the same dimension, and — the loaded index and metadata
being identical — the same `search` results (ranking and scores) for every
query vector and `k`. -/
theorem c7_persist_load_roundtrip (vs vs0 : VectorStore) (idx : FaissIndex)
    (disk : DiskState) (h1 : vs.index = some idx) (_h2 : idx.vectors ≠ [])
    (h3 : vs.save = some disk) (q : List ℚ) (k : Nat) :
    (vs0.load disk).2 = true ∧
    (vs0.load disk).1.ntotal = vs.ntotal ∧
    (vs0.load disk).1.dimension = vs.dimension ∧
    (vs0.load disk).1.search q k = vs.search q k := by
  rcases vs with ⟨vi, vm, vd⟩
  dsimp only at h1
  subst h1
  unfold VectorStore.save at h3
  dsimp only at h3
  rw [Option.some.injEq] at h3
  subst h3
  exact ⟨rfl, rfl, rfl, rfl⟩

/-- **C7 witness** — concrete round trip of a one-vector store. -/
theorem c7_persist_load_roundtrip_witness :
    (VectorStore.empty.load c7Disk).2 = true ∧
    (VectorStore.empty.load c7Disk).1.ntotal = c7Store.ntotal ∧
    (VectorStore.empty.load c7Disk).1.dimension = c7Store.dimension ∧
    (VectorStore.empty.load c7Disk).1.search [1, 1] 3 =
      c7Store.search [1, 1] 3 :=
  c7_persist_load_roundtrip c7Store VectorStore.empty c7Idx c7Disk rfl
    (by decide) rfl [1, 1] 3

/-- Inserting into a sorted hit list adds one element. -/
theorem length_insertHit (x : ℚ × Nat) (l : List (ℚ × Nat)) :
    (insertHit x l).length = l.length + 1 := by
  induction l with
  | nil => rfl
  | cons y ys ih =>
    unfold insertHit
    split
    · rfl
    · simp [List.length_cons, ih]

/-- Sorting preserves length. -/
theorem length_sortHits (l : List (ℚ × Nat)) :
    (sortHits l).length = l.length := by
  induction l with
  | nil => rfl
  | cons x xs ih => simp [sortHits, length_insertHit, ih]

/-- **C10** — `search` is total (a Lean function; the Python body performs
no fallible call), returns `[]` when the index is absent or empty, builds
every result from an in-bounds metadata position (so each result's
metadata entry is an element of the store's metadata list), and returns at
most `min top_k ntotal` results; the final conjunct exhibits a store whose
metadata list is shorter than its vector count, where an out-of-bounds hit
is silently dropped and strictly fewer than `min top_k ntotal` results
come back. -/
theorem c10_search_total_and_inbounds (vs : VectorStore) (q : List ℚ)
    (k : Nat) :
    (vs.index = none → vs.search q k = []) ∧
    (∀ idx, vs.index = some idx → idx.vectors.length = 0 →
      vs.search q k = []) ∧
    (∀ h ∈ vs.search q k, h.meta ∈ vs.metadata) ∧
    (vs.search q k).length ≤ min k vs.ntotal ∧
    (c10Store.search [1] 2).length < min 2 c10Store.ntotal := by
  have hconc : c10Store.search [1] 2 = [{ meta := 7, score := 1 }] := by
    norm_num [c10Store, VectorStore.search, innerProduct, sortHits, insertHit,
      hitBefore, List.range_succ, List.filterMap_cons, List.getElem?_cons_zero]
  have hnt : c10Store.ntotal = 2 := rfl
  refine ⟨?_, ?_, ?_, ?_, by rw [hconc, hnt]; decide⟩
  · intro h
    simp [VectorStore.search, h]
  · intro idx hidx hz
    simp [VectorStore.search, hidx, hz]
  · intro h hmem
    rcases hidx : vs.index with _ | idx
    · simp [VectorStore.search, hidx] at hmem
    · simp only [VectorStore.search, hidx] at hmem
      by_cases hz : idx.vectors.length = 0
      · simp [hz] at hmem
      · rw [if_neg hz] at hmem
        obtain ⟨p, -, hf⟩ := List.mem_filterMap.mp hmem
        revert hf
        rcases hg : vs.metadata.get? p.2 with _ | m
        · intro hf
          exact absurd hf (by simp)
        · intro hf
          rw [Option.some.injEq] at hf
          rw [← hf]
          exact List.get?_mem hg
  · rcases hidx : vs.index with _ | idx
    · simp [VectorStore.search, hidx]
    · by_cases hz : idx.vectors.length = 0
      · simp [VectorStore.search, hidx, hz]
      · have hnt : vs.ntotal = idx.vectors.length := by
          simp [VectorStore.ntotal, hidx]
        rw [hnt]
        simp only [VectorStore.search, hidx, hz, if_false]
        refine le_trans (List.length_filterMap_le _ _) ?_
        rw [List.length_take, length_sortHits, List.length_map,
          List.length_range]
        exact min_le_left _ _

/-- **C10 witness** — the shared-metadata store: at most `min top_k ntotal`
results at a concrete call. -/
theorem c10_search_total_and_inbounds_witness :
    (c10Store.search [(1 : ℚ)] 2).length ≤ min 2 c10Store.ntotal :=
  (c10_search_total_and_inbounds c10Store [1] 2).2.2.2.1

end GeoGLI

/-! Sanity checks against the test cases listed in `_test_router`
(`router_intent.py`, lines 126-136). -/

section SanityChecks

open GeoGLI

example : (route "show Saudi wildfire trend").intent = "ask.country" := by decide

example : (route "MENA restoration commitments by region").intent = "commit.region" := by decide

example : (route "Saudi commitments by country").intent = "commit.country" := by decide

example : (route "Saudi logging law 2020").intent = "law.lookup" := by decide

example : (route "drought in KSA 2015-2020").intent = "ask.country" := by decide

example : (route "drought in KSA 2015-2020").period = "2015-2020" := by decide

example : (route "沙特法规").intent = "law.lookup" := by decide

example : (route "restoration by region").intent = "commit.region" := by decide

example : (route "最近5年 drought").period = "last 5 years" := by decide

end SanityChecks
